import Mathlib

/-!
Shallow embedding of the model-definition code in
`llm/gpt_old.py`, `llm/gpt.py` and `src/mosaic_bert.py`
(MosaicML benchmarks), together with proofs about the embedded
definitions.

Tensors are modelled as nested lists over `ℤ` (integer tensors) or `ℝ`
(float tensors); shapes as tuples of `ℕ`; fallible code returns
`Except String`.  External library operations (`torch.roll`,
`F.cross_entropy`, the `nn.MultiheadAttention` mask semantics, the
FlashMHA kernel contract) are modelled from their documented semantics,
since the repository delegates to them.
-/

/-- Model configuration: the named fields read by the GPT / BERT model
definitions (`cfg.vocab_size`, `cfg.d_model`, `cfg.n_layers`,
`cfg.max_seq_len`, `cfg.init_std`, `cfg.attn_impl`, and the feed-forward
expansion factor, called `mlp_mult` here).  Dropout probabilities and
device strings do not affect any property proved below and are omitted. -/
structure Config where
  vocab_size : ℕ
  d_model : ℕ
  n_heads : ℕ
  n_layers : ℕ
  max_seq_len : ℕ
  mlp_mult : ℕ
  init_std : ℝ
  attn_impl : String

/-! ### Attention-mask semantics (C1, C2)

`nn.MultiheadAttention` accepts an `attn_mask` that is either boolean
(`True` = position not allowed) or floating-point (the mask is *added*
to the attention scores; a position is excluded from attention exactly
when its entry is `-inf`).  We model a float-mask entry as
`Option ℚ`: `none` stands for `-inf` (blocked), `some v` for a finite
additive offset `v`. -/

/-- A single entry of a floating-point additive attention mask:
`none` = `-inf` (the key position is blocked), `some v` = finite
additive offset `v` (the key position keeps positive softmax weight). -/
abbrev MaskEntry := Option ℚ

/-- Whether a float-mask entry blocks its key position under the
`nn.MultiheadAttention` semantics: only `-inf` blocks. -/
def entryBlocks : MaskEntry → Bool
  | none => true
  | some _ => false

/-- The mask buffer built by `TorchCausalAttention.__init__`
(gpt_old.py line 32): `torch.tril(torch.ones(max_seq_len, max_seq_len))`,
a float tensor holding `1.0` on and below the diagonal and `0.0` above
it.  Every entry is finite. -/
def TorchCausalAttention.mask (i j : ℕ) : MaskEntry :=
  some (if j ≤ i then 1 else 0)

/-- A genuinely causal float mask, for comparison: finite on and below
the diagonal, `-inf` strictly above it. -/
def causalFloatMask (i j : ℕ) : MaskEntry :=
  if j ≤ i then some 0 else none

/-- Single-query softmax attention over masked scores, the computation
`nn.MultiheadAttention` performs for one query row: each key `j` gets
weight `exp (score j + mask j)` (and weight `0` when the mask entry is
`-inf`); the output is the weight-average of the values. -/
noncomputable def softmaxAttend (scores : List ℝ) (mask : List MaskEntry) (values : List ℝ) : ℝ :=
  let ws := List.zipWith
    (fun s (m : MaskEntry) =>
      match m with
      | none => (0 : ℝ)
      | some v => Real.exp (s + (v : ℝ))) scores mask
  (List.zipWith (· * ·) ws values).sum / ws.sum

/-- Row `i` of the `TorchCausalAttention` mask, truncated to sequence
length `n`. -/
def torchMaskRow (i n : ℕ) : List MaskEntry :=
  (List.range n).map (fun j => TorchCausalAttention.mask i j)

/-! ### The kernel calls made by the two attention forwards (C2) -/

/-- The argument record of the `self.mha(...)` call made by
`TorchCausalAttention.forward` (gpt_old.py line 36): it passes
`attn_mask=self.mask` and does **not** pass its `key_padding_mask`
argument. -/
structure TorchMHACall where
  attn_mask : Option (ℕ → ℕ → MaskEntry)
  key_padding_mask : Option (List Bool)

/-- `TorchCausalAttention.forward(x, key_padding_mask)`: the call it
makes to `nn.MultiheadAttention`.  The received `key_padding_mask` is
ignored; only the fixed float mask is passed. -/
def TorchCausalAttention.forward (key_padding_mask : Option (List Bool)) :
    TorchMHACall :=
  { attn_mask := some TorchCausalAttention.mask,
    key_padding_mask := none }

/-- The argument record of the `self.mha(...)` call made by
`FlashCausalAttention.forward` (gpt_old.py lines 53-56): the kernel was
constructed with `causal=True` and the received `key_padding_mask` is
forwarded. -/
structure FlashMHACall where
  causal : Bool
  key_padding_mask : Option (List Bool)

/-- `FlashCausalAttention.forward(x, key_padding_mask)`: forwards the
padding mask to the FlashMHA kernel, which was built with
`causal=True`. -/
def FlashCausalAttention.forward (key_padding_mask : Option (List Bool)) :
    FlashMHACall :=
  { causal := true, key_padding_mask := key_padding_mask }

/-- `nn.MultiheadAttention` semantics: query position `i` attends key
position `j` (gets positive softmax weight) iff the float `attn_mask`
entry is finite and the key-padding mask, when supplied, marks `j`
valid (`true` = real token in our convention, matching
`attention_mask.bool()`; `nn.MultiheadAttention` takes the complement,
which the adapter would have to form). -/
def torchCallAttends (c : TorchMHACall) (i j : ℕ) : Bool :=
  (match c.attn_mask with
   | none => true
   | some m => !(entryBlocks (m i j))) &&
  (match c.key_padding_mask with
   | none => true
   | some kpm => kpm.getD j true)

/-- FlashMHA kernel contract: with `causal=True`, query `i` attends key
`j` iff `j ≤ i` and `j` is not padded according to the supplied
key-padding mask. -/
def flashCallAttends (c : FlashMHACall) (i j : ℕ) : Bool :=
  (!c.causal || decide (j ≤ i)) &&
  (match c.key_padding_mask with
   | none => true
   | some kpm => kpm.getD j true)

/-! ### Block construction (C7) -/

/-- The attention submodule selected by `GPTBlock.__init__`. -/
inductive AttnChoice where
  | torchCausal
  | flashCausal
  | flashNonCausal
  deriving DecidableEq, Repr

/-- `GPTBlock.__init__` (gpt_old.py lines 76-88): builds `ln_1`, then
dispatches on `cfg.attn_impl` — `'torch'` and `'flash'` are accepted,
anything else raises `ValueError(f'Unknown attn_impl=...')` before the
block exists. -/
def GPTBlock.init (cfg : Config) : Except String AttnChoice :=
  if cfg.attn_impl = "torch" then
    .ok .torchCausal
  else if cfg.attn_impl = "flash" then
    .ok .flashCausal
  else
    .error ("Unknown attn_impl=" ++ cfg.attn_impl)

/-- `BERTBlock.__init__` (mosaic_bert.py lines 62-72): only `'flash'`
is accepted; anything else raises `ValueError`. -/
def BERTBlock.init (cfg : Config) : Except String AttnChoice :=
  if cfg.attn_impl = "flash" then
    .ok .flashNonCausal
  else
    .error ("Unknown attn_impl=" ++ cfg.attn_impl)

/-! ### Submodule classification predicates (C8) -/

/-- The kinds of submodule reachable from `GPT` / `MosaicBert` via
`module.apply` / named-module traversal. -/
inductive NNSubmodule where
  | gptTop
  | bertTop
  | gptBlock
  | bertBlock
  | torchCausalAttention
  | flashCausalAttention
  | flashNonCausalAttention
  | multiheadAttention
  | mlp
  | linear
  | layerNorm
  | embedding
  | dropout
  | gelu
  | moduleDict
  | moduleList
  deriving DecidableEq, Repr

/-- `GPT.fsdp_wrap_fn` (gpt_old.py lines 170-171):
`isinstance(module, GPTBlock)`. -/
def GPT.fsdp_wrap_fn (m : NNSubmodule) : Bool :=
  match m with
  | .gptBlock => true
  | _ => false

/-- `GPT.activation_checkpointing_fn` (gpt_old.py lines 174-175):
`isinstance(module, GPTBlock)`. -/
def GPT.activation_checkpointing_fn (m : NNSubmodule) : Bool :=
  match m with
  | .gptBlock => true
  | _ => false

/-- `MosaicBert.fsdp_wrap_fn` (mosaic_bert.py lines 155-156):
`isinstance(module, BERTBlock)`. -/
def MosaicBert.fsdp_wrap_fn (m : NNSubmodule) : Bool :=
  match m with
  | .bertBlock => true
  | _ => false

/-- `MosaicBert.activation_checkpointing_fn` (mosaic_bert.py lines
159-160): `isinstance(module, BERTBlock)`. -/
def MosaicBert.activation_checkpointing_fn (m : NNSubmodule) : Bool :=
  match m with
  | .bertBlock => true
  | _ => false

/-! ### eval_forward (C9) -/

/-- `ComposerGPT.eval_forward` / `ComposerMosaicBert.eval_forward`:
`return outputs if outputs is not None else self.forward(batch)`,
with `None` modelled as `Option.none` and the model's forward passed in
as the function it closes over. -/
def ComposerModel.eval_forward {β α : Type} (forward : β → α)
    (batch : β) (outputs : Option α) : α :=
  match outputs with
  | some o => o
  | none => forward batch

/-! ## Theorems -/

/-- C7: constructing a transformer block fails with the
`Unknown attn_impl` configuration error iff the selector is not an
accepted value (`'torch'`/`'flash'` for `GPTBlock`, `'flash'` for
`BERTBlock`); on accepted values construction succeeds.  The error is
produced by the constructor itself, hence before any forward call. -/
theorem block_init_error_iff_unknown_attn_impl (cfg : Config) :
    ((∃ e, GPTBlock.init cfg = .error e) ↔
      (cfg.attn_impl ≠ "torch" ∧ cfg.attn_impl ≠ "flash")) ∧
    ((∃ e, BERTBlock.init cfg = .error e) ↔ cfg.attn_impl ≠ "flash") ∧
    (cfg.attn_impl = "torch" → GPTBlock.init cfg = .ok .torchCausal) ∧
    (cfg.attn_impl = "flash" → GPTBlock.init cfg = .ok .flashCausal) ∧
    (cfg.attn_impl = "flash" → BERTBlock.init cfg = .ok .flashNonCausal) := by
  unfold GPTBlock.init BERTBlock.init
  by_cases ht : cfg.attn_impl = "torch" <;>
    by_cases hf : cfg.attn_impl = "flash" <;>
    simp [ht, hf] at *

/-- Witness for C7 at concrete configurations. -/
theorem block_init_error_iff_unknown_attn_impl_witness :
    (GPTBlock.init ⟨100, 32, 4, 2, 8, 4, 1, "torch"⟩ = .ok .torchCausal) ∧
    (∃ e, GPTBlock.init ⟨100, 32, 4, 2, 8, 4, 1, "triton"⟩ = .error e) ∧
    (∃ e, BERTBlock.init ⟨100, 32, 4, 2, 8, 4, 1, "torch"⟩ = .error e) := by
  refine ⟨(block_init_error_iff_unknown_attn_impl _).2.2.1 rfl, ?_, ?_⟩
  · exact (block_init_error_iff_unknown_attn_impl
      ⟨100, 32, 4, 2, 8, 4, 1, "triton"⟩).1.mpr (by simp)
  · exact ((block_init_error_iff_unknown_attn_impl
      ⟨100, 32, 4, 2, 8, 4, 1, "torch"⟩).2.1).mpr (by simp)

/-- C8: the activation-checkpointing predicate and the FSDP-wrap
predicate are true exactly on the transformer-block submodule
(`GPTBlock` for GPT, `BERTBlock` for MosaicBert), false on every other
submodule, and the two predicates agree on every module. -/
theorem classification_predicates_exactly_blocks (m : NNSubmodule) :
    (GPT.fsdp_wrap_fn m = true ↔ m = .gptBlock) ∧
    (GPT.activation_checkpointing_fn m = true ↔ m = .gptBlock) ∧
    (MosaicBert.fsdp_wrap_fn m = true ↔ m = .bertBlock) ∧
    (MosaicBert.activation_checkpointing_fn m = true ↔ m = .bertBlock) ∧
    GPT.activation_checkpointing_fn m = GPT.fsdp_wrap_fn m ∧
    MosaicBert.activation_checkpointing_fn m = MosaicBert.fsdp_wrap_fn m := by
  cases m <;> simp [GPT.fsdp_wrap_fn, GPT.activation_checkpointing_fn,
    MosaicBert.fsdp_wrap_fn, MosaicBert.activation_checkpointing_fn]

/-- C9: `eval_forward` returns the supplied outputs unchanged when they
are non-`None`, and otherwise returns exactly `forward(batch)`. -/
theorem eval_forward_reuses_or_recomputes {β α : Type}
    (forward : β → α) (batch : β) (o : α) :
    ComposerModel.eval_forward forward batch (some o) = o ∧
    ComposerModel.eval_forward forward batch none = forward batch :=
  ⟨rfl, rfl⟩

/-- C1 (the code side): the mask built by `TorchCausalAttention` — the
float tensor `torch.tril(torch.ones(n, n))`, which
`nn.MultiheadAttention` *adds* to the attention scores — blocks no key
position at all: every entry is finite (`+1` on and below the diagonal,
`+0` above), so every position keeps positive softmax weight on every
future position, and the attention output at position 0 changes when
only the value at the future position 1 changes.  With a genuinely
causal float mask (`-inf` strictly above the diagonal) the output at
position 0 is invariant in the future value.  Hence the 'torch'
implementation is not causal and logits at position `i` are not
invariant to tokens at positions `> i`. -/
theorem torch_causal_mask_blocks_no_future_position :
    (∀ i j : ℕ, entryBlocks (TorchCausalAttention.mask i j) = false) ∧
    softmaxAttend [0, 0] (torchMaskRow 0 2) [0, 0] ≠
      softmaxAttend [0, 0] (torchMaskRow 0 2) [0, 1] ∧
    (∀ v : ℝ,
      softmaxAttend [0, 0] [causalFloatMask 0 0, causalFloatMask 0 1] [0, v] =
      softmaxAttend [0, 0] [causalFloatMask 0 0, causalFloatMask 0 1] [0, 0]) := by
  refine ⟨fun i j => rfl, ?_, ?_⟩
  · have hrow : torchMaskRow 0 2 = [some (1 : ℚ), some 0] := by
      simp [torchMaskRow, TorchCausalAttention.mask, List.range_succ]
    have hL : softmaxAttend [0, 0] [some (1 : ℚ), some 0] [0, 0] = 0 := by
      simp [softmaxAttend]
    have hR : softmaxAttend [0, 0] [some (1 : ℚ), some 0] [0, 1] =
        1 / (Real.exp 1 + 1) := by
      simp [softmaxAttend, Real.exp_zero]
    rw [hrow, hL, hR]
    exact ne_of_lt (by positivity)
  · intro v
    simp [softmaxAttend, causalFloatMask]

/-- C2 counterexample: supply a padding mask marking position 1 as
padding (`[true, false]`).  `TorchCausalAttention.forward` drops the
supplied padding mask (its `nn.MultiheadAttention` call passes
`key_padding_mask = None`), so under the `nn.MultiheadAttention`
semantics position 0 still attends the padded position 1 — the claim
that both implementations combine the causal mask with the padding mask
so that no position attends a padded position is false for 'torch'. -/
theorem torch_attention_attends_padded_position :
    (TorchCausalAttention.forward (some [true, false])).key_padding_mask
      = none ∧
    torchCallAttends (TorchCausalAttention.forward (some [true, false])) 0 1
      = true := by
  exact ⟨rfl, rfl⟩

/-- C2 amended: the 'flash' implementation forwards the supplied
padding mask to the kernel built with `causal=True`, so under the
kernel contract no position attends a padded or future position; the
'torch' implementation ignores the supplied padding mask (it passes
`key_padding_mask = None` to `nn.MultiheadAttention`), so the padding
mask plays no part in its attention masking. -/
theorem flash_combines_causal_and_padding_mask
    (kpm : List Bool) (i j : ℕ) :
    (FlashCausalAttention.forward (some kpm)).key_padding_mask = some kpm ∧
    (FlashCausalAttention.forward (some kpm)).causal = true ∧
    (kpm.getD j true = false →
      flashCallAttends (FlashCausalAttention.forward (some kpm)) i j = false) ∧
    (i < j →
      flashCallAttends (FlashCausalAttention.forward (some kpm)) i j = false) ∧
    (∀ kpm2 : Option (List Bool),
      (TorchCausalAttention.forward kpm2).key_padding_mask = none) := by
  refine ⟨rfl, rfl, ?_, ?_, fun kpm2 => rfl⟩
  · intro hpad
    have hpad2 : kpm[j]?.getD true = false := by simpa [List.getD] using hpad
    simp [flashCallAttends, FlashCausalAttention.forward, List.getD, hpad2]
  · intro hij
    simp [flashCallAttends, FlashCausalAttention.forward, Nat.not_le.mpr hij]

/-- Witness for the amended C2 at a concrete padding mask: with
`kpm = [true, false]`, the flash call does not attend the padded
position 1 from position 0, nor the future position 1 from position 0
even when valid. -/
theorem flash_combines_causal_and_padding_mask_witness :
    ([true, false].getD 1 true = false ∧
      flashCallAttends (FlashCausalAttention.forward (some [true, false])) 0 1
        = false) ∧
    ((0 : ℕ) < 1 ∧
      flashCallAttends (FlashCausalAttention.forward (some [true, true])) 0 1
        = false) :=
  ⟨⟨by decide,
    (flash_combines_causal_and_padding_mask [true, false] 0 1).2.2.1 (by decide)⟩,
   ⟨by decide,
    (flash_combines_causal_and_padding_mask [true, true] 0 1).2.2.2.1 (by decide)⟩⟩

/-! ### Parameter initialization (C3)

`GPT.param_init_fn` (gpt_old.py lines 144-167) and
`MosaicBert.param_init_fn` (mosaic_bert.py lines 129-152) are applied by
`self.apply` to every submodule.  We model a parameter tensor's state
after initialization as the distribution it was last drawn from, and a
submodule by the `isinstance` class tests the function performs plus the
`_is_residual` tag read via `getattr`. -/

/-- The state of a parameter tensor after initialization: untouched,
drawn from `normal(mean, std)`, or filled with ones/zeros. -/
inductive ParamDist where
  | uninit
  | normalD (mean std : ℝ)
  | zeros
  | ones

/-- A submodule as seen by `param_init_fn`: which of the three
`isinstance` tests it satisfies, whether it has a bias parameter, and
whether it carries the `_is_residual` tag (read by
`getattr(module, '_is_residual', False)`). -/
inductive ParamModule where
  | linear (has_bias : Bool) (res_tag : Bool)
  | embedding
  | layerNorm
  | other

/-- The weight and bias slots of one submodule. -/
structure ParamState where
  weight : ParamDist
  bias : ParamDist

/-- `GPT.param_init_fn(module)` (gpt_old.py lines 144-167), acting on
the module's parameter state.  Mirrors the source order: a Linear
weight is first drawn from `normal(0, init_std)`, its bias (when
present) zeroed, and then — when the module is tagged `_is_residual` —
the weight is re-drawn from
`normal(0, init_std / sqrt(2 * n_layers))`; an Embedding weight is
drawn from `normal(0, init_std)`; a LayerNorm gets bias zeroed and
weight set to ones. -/
noncomputable def GPT.param_init_fn (cfg : Config) (m : ParamModule)
    (p : ParamState) : ParamState :=
  let p :=
    match m with
    | .linear has_bias res_tag =>
      let p := { p with weight := .normalD 0 cfg.init_std }
      let p := if has_bias then { p with bias := .zeros } else p
      if res_tag then
        { p with weight :=
            .normalD 0 (cfg.init_std / Real.sqrt (2 * cfg.n_layers)) }
      else p
    | _ => p
  let p :=
    match m with
    | .embedding => { p with weight := .normalD 0 cfg.init_std }
    | _ => p
  match m with
  | .layerNorm => { p with bias := .zeros, weight := .ones }
  | _ => p

/-- `MosaicBert.param_init_fn(module)` (mosaic_bert.py lines 129-152):
textually the same policy as the GPT one. -/
noncomputable def MosaicBert.param_init_fn (cfg : Config) (m : ParamModule)
    (p : ParamState) : ParamState :=
  let p :=
    match m with
    | .linear has_bias res_tag =>
      let p := { p with weight := .normalD 0 cfg.init_std }
      let p := if has_bias then { p with bias := .zeros } else p
      if res_tag then
        { p with weight :=
            .normalD 0 (cfg.init_std / Real.sqrt (2 * cfg.n_layers)) }
      else p
    | _ => p
  let p :=
    match m with
    | .embedding => { p with weight := .normalD 0 cfg.init_std }
    | _ => p
  match m with
  | .layerNorm => { p with bias := .zeros, weight := .ones }
  | _ => p

/-- C3: after the initialization pass, with `L = n_layers` and
`σ = init_std`: a residual-tagged Linear weight is drawn from
`normal(0, σ/sqrt(2L))`, a non-residual Linear weight from
`normal(0, σ)`, a Linear bias is zeroed, an Embedding weight is drawn
from `normal(0, σ)`, a LayerNorm scale is ones and its bias zeros; and
the BERT policy coincides with the GPT one on every module. -/
theorem param_init_policy (cfg : Config) (hb res : Bool) (p : ParamState) :
    (GPT.param_init_fn cfg (.linear hb true) p).weight =
      .normalD 0 (cfg.init_std / Real.sqrt (2 * cfg.n_layers)) ∧
    (GPT.param_init_fn cfg (.linear hb false) p).weight =
      .normalD 0 cfg.init_std ∧
    (GPT.param_init_fn cfg (.linear true res) p).bias = .zeros ∧
    (GPT.param_init_fn cfg .embedding p).weight = .normalD 0 cfg.init_std ∧
    (GPT.param_init_fn cfg .layerNorm p).weight = .ones ∧
    (GPT.param_init_fn cfg .layerNorm p).bias = .zeros ∧
    (∀ m : ParamModule, MosaicBert.param_init_fn cfg m p =
      GPT.param_init_fn cfg m p) := by
  refine ⟨?_, ?_, ?_, rfl, rfl, rfl, ?_⟩
  · cases hb <;> rfl
  · cases hb <;> rfl
  · cases res <;> rfl
  · intro m
    cases m <;> rfl

/-! ### Forward pass, shape level (C4)

`GPT.forward` (gpt_old.py lines 124-141) and `MosaicBert.forward`
(mosaic_bert.py lines 109-126) are embedded at the shape level: a 3-D
tensor is its `(batch, seq, feature)` shape, each library operation
checks the dimensions its contract requires, and the Python `assert`
becomes the length error.  Token ids are represented by their `(B, S)`
shape; the batch contract (section 3 of the spec) guarantees they are
in-vocabulary, so `wte` lookup cannot fail, while the positional ids
are produced *here* as `torch.arange(0, S)`, so the `wpe` lookup bound
is part of this code's behaviour. -/

/-- A `(batch, seq, feature)` tensor shape. -/
abbrev Shape3 := ℕ × ℕ × ℕ

/-- `nn.Linear(in_features, out_features)` applied to a 3-D activation:
requires the last dimension to equal `in_features`. -/
def linearApply (in_features out_features : ℕ) (s : Shape3) :
    Except String Shape3 :=
  if s.2.2 = in_features then .ok (s.1, s.2.1, out_features)
  else .error "mat1 and mat2 shapes cannot be multiplied"

/-- `nn.LayerNorm(d)` applied to a 3-D activation: requires the last
dimension to equal `d`, preserves the shape. -/
def layerNormApply (d : ℕ) (s : Shape3) : Except String Shape3 :=
  if s.2.2 = d then .ok s
  else .error "LayerNorm normalized shape mismatch"

/-- The message of the `RuntimeError` `nn.MultiheadAttention` raises
when a 2-D `attn_mask` of shape `(m, m)` is used at sequence length
`S ≠ m`. -/
def attnMaskShapeErrorMsg (m S : ℕ) : String :=
  "The shape of the 2D attn_mask is (" ++ toString m ++ ", " ++
    toString m ++ "), but should be (" ++ toString S ++ ", " ++
    toString S ++ ")."

/-- The `self.mha(...)` call of `TorchCausalAttention.forward` at the
shape level: `nn.MultiheadAttention` requires the embedding dimension
to match, and its 2-D `attn_mask` — here always the fixed
`(max_seq_len, max_seq_len)` buffer registered at construction
(gpt_old.py lines 31-32, 36) — must have shape exactly `(S, S)` for
the current sequence length `S`; otherwise it raises a
`RuntimeError`. -/
def torchMHAApply (max_seq_len d_model : ℕ) (s : Shape3) :
    Except String Shape3 :=
  if s.2.2 = d_model then
    if max_seq_len = s.2.1 then .ok s
    else .error (attnMaskShapeErrorMsg max_seq_len s.2.1)
  else .error "attention embed_dim mismatch"

/-- The FlashMHA kernel call at the shape level (no fixed-size mask is
passed): `(batch, seq, d_model)` in, same shape out. -/
def flashMHAApply (d_model : ℕ) (s : Shape3) : Except String Shape3 :=
  if s.2.2 = d_model then .ok s
  else .error "attention embed_dim mismatch"

/-- The attention sublayer a `GPTBlock` calls, selected by
`cfg.attn_impl` at construction (see C7): `'torch'` uses
`nn.MultiheadAttention` with the fixed-size mask, `'flash'` the
FlashMHA kernel. -/
def attnApply (cfg : Config) (s : Shape3) : Except String Shape3 :=
  if cfg.attn_impl = "torch" then
    torchMHAApply cfg.max_seq_len cfg.d_model s
  else flashMHAApply cfg.d_model s

/-- Elementwise `+` with broadcasting over the batch dimension, as used
for `tok_emb + pos_emb` (shapes `(B,S,d)` and `(1,S,d)`) and the
residual additions (equal shapes). -/
def broadcastAdd (a b : Shape3) : Except String Shape3 :=
  if a.2.1 = b.2.1 ∧ a.2.2 = b.2.2 then
    if b.1 = 1 then .ok a
    else if a.1 = 1 then .ok b
    else if a.1 = b.1 then .ok a
    else .error "shape mismatch in add"
  else .error "shape mismatch in add"

/-- `self.transformer.wpe(pos)` where `pos = torch.arange(0, S)
.unsqueeze(0)`: an embedding lookup into a table of `max_seq_len` rows
at indices `0, ..., S-1`, producing shape `(1, S, d_model)`; it fails
iff some index reaches the table size, i.e. iff `S > max_seq_len`. -/
def wpeApply (cfg : Config) (S : ℕ) : Except String Shape3 :=
  if S ≤ cfg.max_seq_len then .ok (1, S, cfg.d_model)
  else .error "index out of range in self"

/-- `GPTBlock.forward` (gpt_old.py lines 90-99) at the shape level:
`ln_1`, attention, residual add, `ln_2`, `mlp_up`, `mlp_down`,
residual add.  Dropout and GELU preserve shapes and are omitted. -/
def GPTBlock.forwardShape (cfg : Config) (s : Shape3) :
    Except String Shape3 := do
  let a ← layerNormApply cfg.d_model s
  let b ← attnApply cfg a
  let x ← broadcastAdd s b
  let m ← layerNormApply cfg.d_model x
  let n1 ← linearApply cfg.d_model (cfg.mlp_mult * cfg.d_model) m
  let n2 ← linearApply (cfg.mlp_mult * cfg.d_model) cfg.d_model n1
  broadcastAdd x n2

/-- `BERTBlock.forward` (mosaic_bert.py lines 74-83) at the shape
level: identical composition to the GPT block, with the
`FlashNonCausalAttention` kernel (the only accepted choice, see C7). -/
def BERTBlock.forwardShape (cfg : Config) (s : Shape3) :
    Except String Shape3 := do
  let a ← layerNormApply cfg.d_model s
  let b ← flashMHAApply cfg.d_model a
  let x ← broadcastAdd s b
  let m ← layerNormApply cfg.d_model x
  let n1 ← linearApply cfg.d_model (cfg.mlp_mult * cfg.d_model) m
  let n2 ← linearApply (cfg.mlp_mult * cfg.d_model) cfg.d_model n1
  broadcastAdd x n2

/-- The message of the length assert in both forwards. -/
def seqLenErrorMsg (S max_seq_len : ℕ) : String :=
  "Cannot forward input with seq_len=" ++ toString S ++
    ", this model only supports seq_len<=" ++ toString max_seq_len

/-- `GPT.forward` (gpt_old.py lines 124-141) at the shape level: the
`assert S <= max_seq_len` with its message, then `wte`, `wpe`,
embedding sum, the `n_layers` blocks in order, `ln_f`, `lm_head`. -/
def GPT.forward (cfg : Config) (B S : ℕ) : Except String Shape3 :=
  if S ≤ cfg.max_seq_len then do
    let tok_emb : Shape3 := (B, S, cfg.d_model)
    let pos_emb ← wpeApply cfg S
    let x ← broadcastAdd tok_emb pos_emb
    let x ← (List.range cfg.n_layers).foldlM
      (fun t _ => GPTBlock.forwardShape cfg t) x
    let x ← layerNormApply cfg.d_model x
    linearApply cfg.d_model cfg.vocab_size x
  else .error (seqLenErrorMsg S cfg.max_seq_len)

/-- `MosaicBert.forward` (mosaic_bert.py lines 109-126) at the shape
level: same composition with BERT blocks. -/
def MosaicBert.forward (cfg : Config) (B S : ℕ) : Except String Shape3 :=
  if S ≤ cfg.max_seq_len then do
    let tok_emb : Shape3 := (B, S, cfg.d_model)
    let pos_emb ← wpeApply cfg S
    let x ← broadcastAdd tok_emb pos_emb
    let x ← (List.range cfg.n_layers).foldlM
      (fun t _ => BERTBlock.forwardShape cfg t) x
    let x ← layerNormApply cfg.d_model x
    linearApply cfg.d_model cfg.vocab_size x
  else .error (seqLenErrorMsg S cfg.max_seq_len)

/-- One GPT block maps `(B, S, d_model)` to itself whenever its
attention call succeeds on that shape. -/
theorem gptBlock_shape_preserved (cfg : Config) (B S : ℕ)
    (hattn : attnApply cfg (B, S, cfg.d_model) = .ok (B, S, cfg.d_model)) :
    GPTBlock.forwardShape cfg (B, S, cfg.d_model) = .ok (B, S, cfg.d_model) := by
  unfold GPTBlock.forwardShape
  by_cases hB : B = 1
  · subst hB
    simp [layerNormApply, hattn, linearApply, broadcastAdd,
      bind, Except.bind]
  · simp [layerNormApply, hattn, linearApply, broadcastAdd, hB,
      bind, Except.bind]

/-- A GPT block's attention call succeeds on `(B, S, d_model)` when
the selector is not `'torch'` (the flash kernel has no fixed-size
mask), or when it is `'torch'` and `S` equals `max_seq_len` exactly. -/
theorem attnApply_ok_cases (cfg : Config) (B S : ℕ)
    (h : cfg.attn_impl ≠ "torch" ∨ cfg.max_seq_len = S) :
    attnApply cfg (B, S, cfg.d_model) = .ok (B, S, cfg.d_model) := by
  rcases h with h | h
  · simp [attnApply, flashMHAApply, h]
  · by_cases ht : cfg.attn_impl = "torch" <;>
      simp [attnApply, torchMHAApply, flashMHAApply, ht, h]

/-- With `attn_impl='torch'` and `S ≠ max_seq_len`, a GPT block fails
with `nn.MultiheadAttention`'s 2-D mask-shape error: the registered
mask buffer is `(max_seq_len, max_seq_len)` but `(S, S)` is
required. -/
theorem gptBlock_torch_mask_error (cfg : Config) (B S : ℕ)
    (ht : cfg.attn_impl = "torch") (hS : cfg.max_seq_len ≠ S) :
    GPTBlock.forwardShape cfg (B, S, cfg.d_model)
      = .error (attnMaskShapeErrorMsg cfg.max_seq_len S) := by
  unfold GPTBlock.forwardShape
  simp [layerNormApply, attnApply, torchMHAApply, ht, hS,
    bind, Except.bind]

/-- One BERT block maps `(B, S, d_model)` to itself. -/
theorem bertBlock_shape_preserved (cfg : Config) (B S : ℕ) :
    BERTBlock.forwardShape cfg (B, S, cfg.d_model) = .ok (B, S, cfg.d_model) := by
  unfold BERTBlock.forwardShape
  by_cases hB : B = 1 <;>
    simp [layerNormApply, flashMHAApply, linearApply, broadcastAdd, hB,
      bind, Except.bind]

/-- Folding a step that fixes `x` over any index list returns `x`. -/
theorem foldlM_fixpoint {α : Type} (f : α → Except String α) (x : α)
    (hf : f x = .ok x) (l : List ℕ) :
    l.foldlM (fun t _ => f t) x = .ok x := by
  induction l with
  | nil => rfl
  | cons a l ih =>
    simp only [List.foldlM_cons, hf]
    exact ih

/-- Folding a step whose first application fails propagates that
error. -/
theorem foldlM_first_error {α : Type} (f : α → Except String α) (x : α)
    (e : String) (hf : f x = .error e) (l : List ℕ) (hl : l ≠ []) :
    l.foldlM (fun t _ => f t) x = .error e := by
  cases l with
  | nil => exact absurd rfl hl
  | cons a l' => simp [List.foldlM_cons, hf, bind, Except.bind]

/-- Under a successful attention call, the GPT forward with
`S ≤ max_seq_len` produces `(B, S, vocab_size)` logits. -/
theorem gpt_forward_ok_of_attn_ok (cfg : Config) (B S : ℕ)
    (hS : S ≤ cfg.max_seq_len)
    (hattn : attnApply cfg (B, S, cfg.d_model) = .ok (B, S, cfg.d_model)) :
    GPT.forward cfg B S = .ok (B, S, cfg.vocab_size) := by
  unfold GPT.forward
  simp only [if_pos hS]
  have hwpe : wpeApply cfg S = .ok (1, S, cfg.d_model) := by
    simp [wpeApply, hS]
  have hadd : broadcastAdd (B, S, cfg.d_model) (1, S, cfg.d_model)
      = .ok (B, S, cfg.d_model) := by
    simp [broadcastAdd]
  have hfold := foldlM_fixpoint (GPTBlock.forwardShape cfg)
    (B, S, cfg.d_model) (gptBlock_shape_preserved cfg B S hattn)
    (List.range cfg.n_layers)
  simp [hwpe, hadd, hfold, layerNormApply, linearApply, bind, Except.bind]

/-- C4 counterexample: the claim says forward returns logits whenever
`seq ≤ max_seq_len`, but with `attn_impl='torch'`, `max_seq_len=8` and
`seq = 3 ≤ 8` the forward fails — `nn.MultiheadAttention` rejects the
fixed `(8, 8)` mask buffer at sequence length 3, where a `(3, 3)`
`attn_mask` is required. -/
theorem torch_forward_fails_below_max_seq_len :
    (3 : ℕ) ≤ 8 ∧
    GPT.forward ⟨100, 32, 4, 2, 8, 4, 1, "torch"⟩ 2 3
      = .error (attnMaskShapeErrorMsg 8 3) ∧
    GPT.forward ⟨100, 32, 4, 2, 8, 4, 1, "torch"⟩ 2 3 ≠ .ok (2, 3, 100) := by
  refine ⟨by decide, rfl, ?_⟩
  intro h
  rw [show GPT.forward ⟨100, 32, 4, 2, 8, 4, 1, "torch"⟩ 2 3
    = .error (attnMaskShapeErrorMsg 8 3) from rfl] at h
  exact Except.noConfusion h

/-- C4 (amended): for every batch shape `(B, S)`: with
`S > max_seq_len` both forwards fail with the descriptive length error
of the `assert`.  With `S ≤ max_seq_len`: the MosaicBert forward, and
the GPT forward for any selector other than `'torch'` (i.e. `'flash'`,
the only other selector that survives construction), return logits of
shape `(B, S, vocab_size)` and fail in no other length case; the GPT
forward with `attn_impl='torch'` returns logits only when
`S = max_seq_len` exactly, and for `S < max_seq_len` (with at least
one layer) fails with `nn.MultiheadAttention`'s mask-shape
`RuntimeError`, because the fixed `(max_seq_len, max_seq_len)` mask
buffer must have shape `(S, S)`. -/
theorem forward_length_and_torch_mask_cases (cfg : Config) (B S : ℕ) :
    (cfg.attn_impl ≠ "torch" → S ≤ cfg.max_seq_len →
      GPT.forward cfg B S = .ok (B, S, cfg.vocab_size)) ∧
    (cfg.attn_impl = "torch" → S = cfg.max_seq_len →
      GPT.forward cfg B S = .ok (B, S, cfg.vocab_size)) ∧
    (cfg.attn_impl = "torch" → 0 < cfg.n_layers → S < cfg.max_seq_len →
      GPT.forward cfg B S
        = .error (attnMaskShapeErrorMsg cfg.max_seq_len S)) ∧
    (S ≤ cfg.max_seq_len →
      MosaicBert.forward cfg B S = .ok (B, S, cfg.vocab_size)) ∧
    (cfg.max_seq_len < S →
      GPT.forward cfg B S = .error (seqLenErrorMsg S cfg.max_seq_len) ∧
      MosaicBert.forward cfg B S
        = .error (seqLenErrorMsg S cfg.max_seq_len)) := by
  refine ⟨?_, ?_, ?_, ?_, ?_⟩
  · intro ht hS
    exact gpt_forward_ok_of_attn_ok cfg B S hS
      (attnApply_ok_cases cfg B S (Or.inl ht))
  · intro ht hS
    exact gpt_forward_ok_of_attn_ok cfg B S (le_of_eq hS)
      (attnApply_ok_cases cfg B S (Or.inr hS.symm))
  · intro ht hlayers hSlt
    have hS : S ≤ cfg.max_seq_len := le_of_lt hSlt
    unfold GPT.forward
    simp only [if_pos hS]
    have hwpe : wpeApply cfg S = .ok (1, S, cfg.d_model) := by
      simp [wpeApply, hS]
    have hadd : broadcastAdd (B, S, cfg.d_model) (1, S, cfg.d_model)
        = .ok (B, S, cfg.d_model) := by
      simp [broadcastAdd]
    have hblock := gptBlock_torch_mask_error cfg B S ht (ne_of_gt hSlt)
    have hne : List.range cfg.n_layers ≠ [] := by
      simp only [ne_eq, List.range_eq_nil]
      omega
    have hfold := foldlM_first_error (GPTBlock.forwardShape cfg)
      (B, S, cfg.d_model) _ hblock (List.range cfg.n_layers) hne
    simp [hwpe, hadd, hfold, bind, Except.bind]
  · intro hS
    unfold MosaicBert.forward
    simp only [if_pos hS]
    have hwpe : wpeApply cfg S = .ok (1, S, cfg.d_model) := by
      simp [wpeApply, hS]
    have hadd : broadcastAdd (B, S, cfg.d_model) (1, S, cfg.d_model)
        = .ok (B, S, cfg.d_model) := by
      simp [broadcastAdd]
    have hfold := foldlM_fixpoint (BERTBlock.forwardShape cfg)
      (B, S, cfg.d_model) (bertBlock_shape_preserved cfg B S)
      (List.range cfg.n_layers)
    simp [hwpe, hadd, hfold, layerNormApply, linearApply, bind, Except.bind]
  · intro hS
    have h : ¬ S ≤ cfg.max_seq_len := Nat.not_le.mpr hS
    unfold GPT.forward MosaicBert.forward
    simp [h]

/-- Witness for the amended C4 at the spec's end-to-end configuration
(`vocab_size=100, d_model=32, n_heads=4, n_layers=2, max_seq_len=8`):
flash at `S=3` and torch at `S=8` yield logits, torch at `S=3` fails
with the mask-shape error, MosaicBert at `S=3` yields logits, and
`S=9 = max_seq_len+1` fails with the length error. -/
theorem forward_length_and_torch_mask_cases_witness :
    GPT.forward ⟨100, 32, 4, 2, 8, 4, 1, "flash"⟩ 2 3 = .ok (2, 3, 100) ∧
    GPT.forward ⟨100, 32, 4, 2, 8, 4, 1, "torch"⟩ 2 8 = .ok (2, 8, 100) ∧
    GPT.forward ⟨100, 32, 4, 2, 8, 4, 1, "torch"⟩ 2 3
      = .error (attnMaskShapeErrorMsg 8 3) ∧
    MosaicBert.forward ⟨100, 32, 4, 2, 8, 4, 1, "flash"⟩ 2 3
      = .ok (2, 3, 100) ∧
    GPT.forward ⟨100, 32, 4, 2, 8, 4, 1, "flash"⟩ 2 9
      = .error (seqLenErrorMsg 9 8) := by
  refine ⟨?_, ?_, ?_, ?_, ?_⟩
  · exact (forward_length_and_torch_mask_cases _ 2 3).1 (by decide) (by decide)
  · exact (forward_length_and_torch_mask_cases _ 2 8).2.1 rfl rfl
  · exact (forward_length_and_torch_mask_cases _ 2 3).2.2.1 rfl
      (by decide) (by decide)
  · exact (forward_length_and_torch_mask_cases _ 2 3).2.2.2.1 (by decide)
  · exact ((forward_length_and_torch_mask_cases _ 2 9).2.2.2.2 (by decide)).1

/-! ### get_targets (C5)

`ComposerGPT.get_targets` (gpt.py lines 40-43, identical in gpt_old.py
lines 192-195):
`targets = torch.roll(batch["labels"], shifts=-1); targets[:, -1] = -100`.
`torch.roll` without a `dims` argument flattens the tensor, rolls the
flat vector, and restores the shape; with `shifts=-1` the element at
flat position `k` receives the element originally at `k+1 (mod N)`.
A `(B, S)` integer tensor is modelled as a rectangular
`List (List ℤ)`. -/

/-- `torch.roll(x, shifts=-1)` on the flattened tensor: the element at
position `k` becomes the element originally at `k+1 (mod N)`, i.e. a
rotation left by one. -/
def torchRollFlat (xs : List ℤ) : List ℤ := xs.rotate 1

/-- Restore a flat vector of length `B*S` to `B` rows of `S`. -/
def reshapeRows (B S : ℕ) (flat : List ℤ) : List (List ℤ) :=
  (List.range B).map (fun b => (flat.drop (b * S)).take S)

/-- `targets[:, -1] = v`: overwrite the last column of every row. -/
def setLastCol (v : ℤ) (rows : List (List ℤ)) : List (List ℤ) :=
  rows.map (fun r => r.set (r.length - 1) v)

/-- `ComposerGPT.get_targets(batch)` on `batch["labels"]` of shape
`(B, S)`: flat roll by `-1`, reshape, then set the last column
to `-100`. -/
def ComposerGPT.get_targets (labels : List (List ℤ)) : List (List ℤ) :=
  setLastCol (-100)
    (reshapeRows labels.length (labels.headD []).length
      (torchRollFlat labels.flatten))

/-- `ComposerMosaicBert.get_targets(batch)` (mosaic_bert.py lines
179-180): `return batch['labels']`, unmodified. -/
def ComposerMosaicBert.get_targets (labels : List (List ℤ)) :
    List (List ℤ) := labels

/-- The flattened length of a rectangular `(B, S)` list of lists. -/
theorem rect_join_length (labels : List (List ℤ)) (S : ℕ)
    (hS : ∀ r ∈ labels, r.length = S) :
    labels.flatten.length = labels.length * S := by
  induction labels with
  | nil => simp
  | cons r t ih =>
    have hr : r.length = S := hS r (by simp)
    have ht : ∀ r' ∈ t, r'.length = S := fun r' h => hS r' (by simp [h])
    simp [hr, ih ht, Nat.succ_mul, Nat.add_comm]

/-- Indexing the flattened rectangular list: flat position `b*S + k`
holds row `b`, column `k`. -/
theorem rect_join_getD (labels : List (List ℤ)) (S : ℕ)
    (hS : ∀ r ∈ labels, r.length = S) (b k : ℕ)
    (hb : b < labels.length) (hk : k < S) :
    labels.flatten.getD (b * S + k) 0 = (labels.getD b []).getD k 0 := by
  induction labels generalizing b with
  | nil => simp at hb
  | cons r t ih =>
    have hr : r.length = S := hS r (by simp)
    have ht : ∀ r' ∈ t, r'.length = S := fun r' h => hS r' (by simp [h])
    cases b with
    | zero =>
      simp only [List.flatten_cons, Nat.zero_mul, Nat.zero_add,
        List.getD_cons_zero]
      exact List.getD_append _ _ _ _ (by rw [hr]; exact hk)
    | succ b' =>
      have hb' : b' < t.length := by simpa using hb
      have hidx : (b' + 1) * S + k = r.length + (b' * S + k) := by
        rw [hr]; ring
      simp only [List.flatten_cons, List.getD_cons_succ]
      rw [hidx, List.getD_append_right _ _ _ _ (Nat.le_add_right _ _)]
      simp only [Nat.add_sub_cancel_left]
      exact ih ht b' hb'

/-- C5: for a rectangular `(B, S)` label tensor, the causal adapter's
`get_targets` returns, in every row `b`, the label originally at
position `i+1` at each position `i < S-1`, and the sentinel `-100` at
the final position — the cross-row element that the flat `torch.roll`
moves into the last column is overwritten by `targets[:, -1] = -100`.
The BERT adapter's `get_targets` returns the labels unmodified. -/
theorem get_targets_causal_shift (labels : List (List ℤ)) (S b i : ℕ)
    (hS : ∀ r ∈ labels, r.length = S)
    (hb : b < labels.length) (hi : i < S) :
    ((ComposerGPT.get_targets labels).getD b []).getD i 0 =
      (if i = S - 1 then -100 else (labels.getD b []).getD (i + 1) 0) ∧
    ComposerMosaicBert.get_targets labels = labels := by
  refine ⟨?_, rfl⟩
  have hhead : (labels.headD []).length = S := by
    cases labels with
    | nil => simp at hb
    | cons r t => exact hS r (by simp)
  set B := labels.length with hB
  have hflen : labels.flatten.length = B * S := rect_join_length labels S hS
  have hbS : b * S + S ≤ B * S := by
    have h1 : b + 1 ≤ B := hb
    calc b * S + S = (b + 1) * S := by ring
    _ ≤ B * S := Nat.mul_le_mul_right S h1
  set flat := torchRollFlat labels.flatten with hflat
  have hflatlen : flat.length = B * S := by
    rw [hflat, torchRollFlat, List.length_rotate, hflen]
  have hrowlen : ((flat.drop (b * S)).take S).length = S := by
    simp only [List.length_take, List.length_drop, hflatlen]
    omega
  unfold ComposerGPT.get_targets setLastCol
  rw [hhead, ← hflat, ← hB]
  have h1 : b < ((reshapeRows B S flat).map
      (fun r => r.set (r.length - 1) (-100))).length := by
    simpa [reshapeRows] using hb
  rw [List.getD_eq_getElem _ _ h1]
  simp only [reshapeRows, List.getElem_map, List.getElem_range]
  rw [hrowlen]
  by_cases hiS : i = S - 1
  · rw [if_pos hiS]
    have hlt : S - 1 < (((flat.drop (b * S)).take S).set (S - 1)
        (-100)).length := by
      rw [List.length_set, hrowlen]; omega
    rw [hiS, List.getD_eq_getElem _ _ hlt, List.getElem_set_self]
  · rw [if_neg hiS]
    have hi1 : i + 1 < S := by omega
    have hlt : i < (((flat.drop (b * S)).take S).set (S - 1)
        (-100)).length := by
      rw [List.length_set, hrowlen]; exact hi
    rw [List.getD_eq_getElem _ _ hlt,
      List.getElem_set_ne (by omega : S - 1 ≠ i), List.getElem_take,
      List.getElem_drop]
    have h3 : b * S + i < flat.length := by rw [hflatlen]; omega
    rw [← List.getD_eq_getElem flat (0 : ℤ) h3, hflat, torchRollFlat]
    have h4 : b * S + i < (labels.flatten.rotate 1).length := by
      rw [List.length_rotate, hflen]; omega
    rw [List.getD_eq_getElem _ _ h4, List.getElem_rotate]
    have hlt2 : b * S + i + 1 < B * S := by omega
    have hmod : (b * S + i + 1) % labels.flatten.length = b * S + (i + 1) := by
      rw [hflen, Nat.mod_eq_of_lt hlt2]; omega
    have h5 : (b * S + i + 1) % labels.flatten.length <
        labels.flatten.length := by
      rw [hflen]
      exact Nat.mod_lt _ (by omega)
    rw [← List.getD_eq_getElem labels.flatten (0 : ℤ) h5, hmod,
      rect_join_getD labels S hS b (i + 1) hb hi1]

/-- Witness for C5 on the spec's example row `[a, b, c, d] = [1, 2, 3, 4]`:
the targets row is `[2, 3, 4, -100]`. -/
theorem get_targets_causal_shift_witness :
    ((ComposerGPT.get_targets [[(1 : ℤ), 2, 3, 4]]).getD 0 []).getD 1 0 = 3 ∧
    ((ComposerGPT.get_targets [[(1 : ℤ), 2, 3, 4]]).getD 0 []).getD 3 0
      = -100 := by
  constructor
  · have h := (get_targets_causal_shift [[(1 : ℤ), 2, 3, 4]] 4 0 1
      (by decide) (by decide) (by decide)).1
    simpa using h
  · have h := (get_targets_causal_shift [[(1 : ℤ), 2, 3, 4]] 4 0 3
      (by decide) (by decide) (by decide)).1
    simpa using h

/-! ### loss (C6)

`ComposerGPT.loss` (gpt_old.py lines 204-208) and
`ComposerMosaicBert.loss` (mosaic_bert.py lines 189-193):
`F.cross_entropy(outputs.view(-1, V), targets.view(-1),
ignore_index=-100)`.  `F.cross_entropy` with the default mean reduction
and an `ignore_index` is modelled from its documented semantics: the
per-position term is `log-sum-exp(row) - row[target]`, positions whose
target equals the ignore index contribute neither to the sum nor to
the divisor. -/

/-- `log(Σ exp)` over one row of logits. -/
noncomputable def logSumExp (row : List ℝ) : ℝ :=
  Real.log (row.map Real.exp).sum

/-- The cross-entropy of one position: `-log softmax(row)[t]`. -/
noncomputable def ceTerm (row : List ℝ) (t : ℤ) : ℝ :=
  logSumExp row - row.getD t.toNat 0

/-- `F.cross_entropy(input, target, ignore_index)` with the default
mean reduction: positions with `target = ignore_index` are excluded,
and the remaining terms are averaged over the included count. -/
noncomputable def F.cross_entropy (input : List (List ℝ)) (target : List ℤ)
    (ignore_index : ℤ) : ℝ :=
  let pairs := input.zip target
  let included := pairs.filter (fun p => p.2 != ignore_index)
  (included.map (fun p => ceTerm p.1 p.2)).sum / included.length

/-- `ComposerGPT.loss(outputs, batch)`: flatten the `(B, S, V)` outputs
to `(B*S, V)` and the shifted targets to `(B*S,)`, then
`F.cross_entropy` with `ignore_index=-100`. -/
noncomputable def ComposerGPT.loss (outputs : List (List (List ℝ)))
    (labels : List (List ℤ)) : ℝ :=
  F.cross_entropy outputs.flatten
    (ComposerGPT.get_targets labels).flatten (-100)

/-- `ComposerMosaicBert.loss(outputs, batch)`: same, with the
unshifted labels as targets. -/
noncomputable def ComposerMosaicBert.loss (outputs : List (List (List ℝ)))
    (labels : List (List ℤ)) : ℝ :=
  F.cross_entropy outputs.flatten
    (ComposerMosaicBert.get_targets labels).flatten (-100)

/-- Two output lists that agree at every position whose target is not
the ignore value produce the same included (non-ignored) position
list. -/
theorem zip_filter_congr (xs ys : List (List ℝ)) (ts : List ℤ)
    (hlen : xs.length = ys.length)
    (hagree : ∀ k, ts.getD k (-100) ≠ -100 → xs.getD k [] = ys.getD k []) :
    (xs.zip ts).filter (fun p => p.2 != -100) =
      (ys.zip ts).filter (fun p => p.2 != -100) := by
  induction xs generalizing ys ts with
  | nil =>
    cases ys with
    | nil => rfl
    | cons y ys' => simp at hlen
  | cons x xs' ih =>
    cases ys with
    | nil => simp at hlen
    | cons y ys' =>
      cases ts with
      | nil => rfl
      | cons t ts' =>
        have hlen' : xs'.length = ys'.length := by simpa using hlen
        have hagree' : ∀ k, ts'.getD k (-100) ≠ -100 →
            xs'.getD k [] = ys'.getD k [] := by
          intro k hk
          exact hagree (k + 1) (by simpa using hk)
        by_cases ht : t = -100
        · simp [List.filter_cons, ht, ih ys' ts' hlen' hagree']
        · have hx : x = y := hagree 0 (by simpa using ht)
          simp [List.filter_cons, bne_iff_ne, ht, hx,
            ih ys' ts' hlen' hagree']

/-- C6: the loss equals the cross-entropy over the flattened
outputs/targets, summed over positions whose target is not `-100` and
divided by the number of those positions only; and for each adapter,
outputs that agree at every position whose *own* targets are not
ignored — but may differ arbitrarily at its ignore-labeled positions —
give identical loss: the GPT conclusion assumes agreement off the
shifted targets' `-100` positions, the BERT conclusion assumes
agreement off the raw labels' `-100` positions. -/
theorem loss_excludes_ignored_and_is_invariant
    (o1 o2 : List (List (List ℝ))) (labels : List (List ℤ))
    (hlen : o1.flatten.length = o2.flatten.length) :
    (ComposerGPT.loss o1 labels =
      (((o1.flatten.zip ((ComposerGPT.get_targets labels).flatten)).filter
          (fun p => p.2 != -100)).map (fun p => ceTerm p.1 p.2)).sum /
        ((o1.flatten.zip ((ComposerGPT.get_targets labels).flatten)).filter
          (fun p => p.2 != -100)).length) ∧
    ((∀ k,
        (ComposerGPT.get_targets labels).flatten.getD k (-100) ≠ -100 →
        o1.flatten.getD k [] = o2.flatten.getD k []) →
      ComposerGPT.loss o1 labels = ComposerGPT.loss o2 labels) ∧
    ((∀ k, labels.flatten.getD k (-100) ≠ -100 →
        o1.flatten.getD k [] = o2.flatten.getD k []) →
      ComposerMosaicBert.loss o1 labels
        = ComposerMosaicBert.loss o2 labels) := by
  refine ⟨rfl, ?_, ?_⟩
  · intro hagree
    unfold ComposerGPT.loss F.cross_entropy
    dsimp only
    rw [zip_filter_congr o1.flatten o2.flatten _ hlen hagree]
  · intro hagree
    unfold ComposerMosaicBert.loss F.cross_entropy
      ComposerMosaicBert.get_targets
    dsimp only
    rw [zip_filter_congr o1.flatten o2.flatten _ hlen hagree]

/-- Witness for C6 in the nondegenerate cases.  GPT: labels `[[0, 1]]`
contain no `-100` at all; the shifted targets are `[1, -100]`, and
altering the logits only at the shift-induced ignored last position
leaves the loss unchanged.  BERT: labels `[[1, -100]]` ignore
position 1, and altering only that position's logits leaves the loss
unchanged. -/
theorem loss_excludes_ignored_and_is_invariant_witness :
    ComposerGPT.loss [[[1, 2], [3, 4]]] [[0, 1]]
      = ComposerGPT.loss [[[1, 2], [9, 9]]] [[0, 1]] ∧
    ComposerMosaicBert.loss [[[1, 2], [3, 4]]] [[1, -100]]
      = ComposerMosaicBert.loss [[[1, 2], [9, 9]]] [[1, -100]] := by
  constructor
  · exact (loss_excludes_ignored_and_is_invariant
      [[[1, 2], [3, 4]]] [[[1, 2], [9, 9]]] [[0, 1]] (by simp)).2.1
      (by
        intro k hk
        match k with
        | 0 => rfl
        | 1 => exact absurd (by decide) hk
        | n + 2 =>
          have h2 : (ComposerGPT.get_targets
              [[(0 : ℤ), 1]]).flatten.length = 2 := by decide
          exact absurd (List.getD_eq_default _ _ (by omega)) hk)
  · exact (loss_excludes_ignored_and_is_invariant
      [[[1, 2], [3, 4]]] [[[1, 2], [9, 9]]] [[1, -100]] (by simp)).2.2
      (by
        intro k hk
        match k with
        | 0 => rfl
        | 1 => exact absurd (by decide) hk
        | n + 2 =>
          have h2 : ([[(1 : ℤ), -100]] : List (List ℤ)).flatten.length
              = 2 := by decide
          exact absurd (List.getD_eq_default _ _ (by omega)) hk)

/-! ### get_targets leaves `batch['labels']` unchanged (C10)

To state the frame property we give `ComposerGPT.get_targets` a
heap-level embedding: tensors live in a store indexed by allocation
order, `torch.roll` (an out-of-place operation by the PyTorch contract)
allocates a fresh tensor, and the slice assignment
`targets[:, -1] = -100` mutates the tensor at its pointer in place. -/

/-- A heap of 2-D integer tensors: pointers are allocation indices,
`next` is the next fresh pointer (every pointer `< next` is live). -/
structure TensorHeap where
  store : ℕ → List (List ℤ)
  next : ℕ

/-- The value `torch.roll(x, shifts=-1)` computes for a 2-D tensor:
flatten, rotate left by one, reshape. -/
def torchRoll2d (x : List (List ℤ)) : List (List ℤ) :=
  reshapeRows x.length (x.headD []).length (torchRollFlat x.flatten)

/-- `torch.roll` allocates a fresh result tensor and leaves every
existing tensor untouched. -/
def torchRollAlloc (h : TensorHeap) (p : ℕ) : TensorHeap × ℕ :=
  ({ store := fun q =>
      if q = h.next then torchRoll2d (h.store p) else h.store q,
     next := h.next + 1 }, h.next)

/-- `t[:, -1] = v`: an in-place write to the tensor at pointer `p`. -/
def setLastColAssign (h : TensorHeap) (p : ℕ) (v : ℤ) : TensorHeap :=
  { h with store := fun q =>
      if q = p then setLastCol v (h.store q) else h.store q }

/-- `ComposerGPT.get_targets(batch)` as a heap program (gpt.py lines
40-43): roll allocates `targets`, the slice assignment mutates
`targets` in place, and the pointer to `targets` is returned. -/
def get_targets_prog (h : TensorHeap) (labelsPtr : ℕ) : TensorHeap × ℕ :=
  let alloc := torchRollAlloc h labelsPtr
  let h2 := setLastColAssign alloc.1 alloc.2 (-100)
  (h2, alloc.2)

/-- C10: running the causal adapter's `get_targets` leaves the tensor
at `batch['labels']`'s pointer unchanged — the left-shift allocates a
fresh tensor and only that fresh tensor receives the in-place `-100`
write; the returned tensor is a distinct pointer holding exactly the
functional `ComposerGPT.get_targets` of the labels value. -/
theorem get_targets_does_not_modify_labels (h : TensorHeap)
    (labelsPtr : ℕ) (hvalid : labelsPtr < h.next) :
    (get_targets_prog h labelsPtr).1.store labelsPtr = h.store labelsPtr ∧
    (get_targets_prog h labelsPtr).2 ≠ labelsPtr ∧
    (get_targets_prog h labelsPtr).1.store (get_targets_prog h labelsPtr).2
      = ComposerGPT.get_targets (h.store labelsPtr) := by
  have hne : labelsPtr ≠ h.next := Nat.ne_of_lt hvalid
  refine ⟨?_, fun hcontra => hne hcontra.symm, ?_⟩
  · simp [get_targets_prog, torchRollAlloc, setLastColAssign, hne]
  · simp [get_targets_prog, torchRollAlloc, setLastColAssign,
      ComposerGPT.get_targets, torchRoll2d]

/-- Witness for C10 on a heap holding one `(2, 2)` label tensor: the
labels are unchanged and the result pointer is fresh. -/
theorem get_targets_does_not_modify_labels_witness :
    (0 : ℕ) < 1 ∧
    (get_targets_prog ⟨fun _ => [[1, 2], [3, 4]], 1⟩ 0).1.store 0
      = [[1, 2], [3, 4]] :=
  ⟨by decide,
   (get_targets_does_not_modify_labels
     ⟨fun _ => [[1, 2], [3, 4]], 1⟩ 0 (by decide)).1⟩
